import Mathlib

/-!
A shallow embedding of the task-lifecycle and signaling core of the
`freertos.rs` binding (src/src/task.rs and src/src/delays.rs), together with
theorems settling the specification's claims about it.

Kernel primitives (`freertos_rs_*`) are external foreign operations: each
embedded operation that consumes one is parameterized by the primitive's
observable result.  Machine integers are modelled as `Nat` with explicit
reduction modulo `2 ^ width` where wraparound matters.  Side effects that the
claims speak about (ownership transfer of the boxed closure, console output)
are modelled as explicit event traces.
-/

namespace FreeRtosRs

/-- Modelled from the spec: the kernel tick counter (`FreeRtosTickType`, whose
definition lives outside `src/`) is "an unsigned, wrapping counter"; we use
the standard 32-bit width, so tick values are naturals below
`tickModulus = 2 ^ 32 = 4294967296`. -/
def tickModulus : Nat := 4294967296

/-- Wrapping (two's-complement style) subtraction of tick counts, the meaning
of `c - self.last_wake_time` on the unsigned tick type: for operands below
`tickModulus` this is exactly subtraction modulo `tickModulus`. -/
def tickSub (a b : Nat) : Nat :=
  (a + tickModulus - b) % tickModulus

/-- Modelled from the spec: `Duration` (defined outside `src/`) is "a
caller-facing unit convertible to a tick count"; we carry exactly the tick
count its conversion produces. -/
structure Duration where
  ticks : Nat
deriving DecidableEq

/-- Conversion of a `Duration` to a tick count (`Duration::to_ticks`). -/
def Duration.to_ticks (d : Duration) : Nat := d.ticks

/-- Modelled from the spec: the error taxonomy of the binding (the enum itself
is declared outside `src/`; the four variants are exactly the ones `src/`
constructs and the spec lists in section 7). -/
inductive FreeRtosError where
  | OutOfMemory
  | TaskNotFound
  | QueueFull
  | Timeout
deriving DecidableEq

/-- `TaskPriority` from src/src/task.rs: the four ordered priority levels. -/
inductive TaskPriority where
  | BelowNormal
  | Normal
  | AboveNormal
  | High
deriving DecidableEq

/-- `TaskPriority::to_freertos` from src/src/task.rs: the kernel-native
numeric priority for each level. -/
def TaskPriority.to_freertos : TaskPriority → Nat
  | .BelowNormal => 6
  | .Normal => 5
  | .AboveNormal => 4
  | .High => 3

/-- Position of a priority level in the documented ordering
`BelowNormal < Normal < AboveNormal < High` (left to right, lowest first). -/
def TaskPriority.level : TaskPriority → Nat
  | .BelowNormal => 0
  | .Normal => 1
  | .AboveNormal => 2
  | .High => 3

/-- `TaskNotification` from src/src/task.rs: the command mutating a target
task's 32-bit notification value. -/
inductive TaskNotification where
  | NoAction
  | SetBits (v : Nat)
  | Increment
  | OverwriteValue (v : Nat)
  | SetValue (v : Nat)

/-- `TaskNotification::to_freertos` from src/src/task.rs: the wire pair
(value, action code) sent to the kernel. -/
def TaskNotification.to_freertos : TaskNotification → Nat × Nat
  | .NoAction => (0, 0)
  | .SetBits v => (v, 1)
  | .Increment => (0, 2)
  | .OverwriteValue v => (v, 3)
  | .SetValue v => (v, 4)

/-- Constructor index of a notification command, in declaration order (the
order of the spec's command set). -/
def TaskNotification.tag : TaskNotification → Nat
  | .NoAction => 0
  | .SetBits _ => 1
  | .Increment => 2
  | .OverwriteValue _ => 3
  | .SetValue _ => 4

/-- A canonical notification command for each of the five action codes,
inverting `TaskNotification.tag`. -/
def notifOfCode : Fin 5 → TaskNotification
  | 0 => .NoAction
  | 1 => .SetBits 0
  | 2 => .Increment
  | 3 => .OverwriteValue 0
  | 4 => .SetValue 0

/-- `TaskDelayPeriodic` from src/src/delays.rs: the last reset tick count and
the configured period. -/
structure TaskDelayPeriodic where
  last_wake_time : Nat
  period : Duration
deriving DecidableEq

/-- `TaskDelayPeriodic::should_run` from src/src/delays.rs, with the current
tick count `c` (the value `CurrentTask::get_tick_count()` reads from the
kernel) passed explicitly and the mutable state threaded through: compares
the wrapping difference `c - last_wake_time` against the period in ticks; if
it is smaller, returns `false` leaving the state as is, otherwise stores `c`
as the new baseline and returns `true`. -/
def TaskDelayPeriodic.should_run (s : TaskDelayPeriodic) (c : Nat) :
    Bool × TaskDelayPeriodic :=
  if tickSub c s.last_wake_time < s.period.to_ticks then
    (false, s)
  else
    (true, { s with last_wake_time := c })

/-- `TaskDelayPeriodic::reset` from src/src/delays.rs: sets the baseline to
the current tick count. -/
def TaskDelayPeriodic.reset (s : TaskDelayPeriodic) (c : Nat) :
    TaskDelayPeriodic :=
  { s with last_wake_time := c }

/-- `TaskDelayPeriodic::set_period` from src/src/delays.rs: replaces the
period, leaving the baseline untouched. -/
def TaskDelayPeriodic.set_period (s : TaskDelayPeriodic) (period : Duration) :
    TaskDelayPeriodic :=
  { s with period := period }

/-- `Task` from src/src/task.rs: a handle holding the opaque kernel task
handle.  Raw pointers are modelled as natural-number addresses, with `0` for
the null pointer. -/
structure Task where
  task_handle : Nat
deriving DecidableEq

/-- `Task::current` from src/src/task.rs, parameterized by the handle the
kernel primitive `freertos_rs_get_current_task` returns (`0` = null): wraps a
non-null handle in a `Task`, and reports `TaskNotFound` on null. -/
def Task.current (t : Nat) : Except FreeRtosError Task :=
  if t ≠ 0 then .ok ⟨t⟩ else .error .TaskNotFound

/-- Observable result of the kernel primitive `freertos_rs_task_notify_wait`:
the returned status and the notification value written through the out
pointer. -/
structure NotifyWaitResult where
  status : Nat
  value : Nat
deriving DecidableEq

/-- `Task::wait_for_notification` from src/src/task.rs, parameterized by the
kernel notify-wait primitive (a function of the clear-on-entry mask, the
clear-on-exit mask and the tick timeout): returns the value the primitive
wrote when it reports status `0`, and fails with `Timeout` on any nonzero
status. -/
def Task.wait_for_notification (kernel : Nat → Nat → Nat → NotifyWaitResult)
    (clear_bits_enter clear_bits_exit : Nat) (wait_for : Duration) :
    Except FreeRtosError Nat :=
  let r := kernel clear_bits_enter clear_bits_exit wait_for.to_ticks
  if r.status = 0 then .ok r.value else .error .Timeout

/-- `message` from src/src/task.rs, with the console modelled as the list of
bytes passed to `console_putchar` in order, and the input string as the list
of its characters' code points: each character emits exactly one byte, a
character above `'\x7f'` being replaced by `'?'` (code 0x3f) and any other
passed through as its own code. -/
def message (msg : List Nat) : List Nat :=
  msg.map (fun c => if 0x7f < c then 0x3f else c)

/-- Ownership and kernel events of the spawn path, in program order.  The
"box" is the heap allocation `spawn_inner` creates for the caller's
closure. -/
inductive SpawnEvent where
  | forgetBox      -- `mem::forget(f)`: ownership released, nothing freed
  | dropBox        -- the box leaves scope normally: closure dropped and freed
  | reclaimBox     -- `Box::from_raw` in `thread_start`: ownership reclaimed
  | invokeClosure  -- `b()`: the closure is invoked
  | freeBox        -- the reclaimed box leaves scope in `thread_start`: freed
  | deleteSelf     -- `freertos_rs_delete_task(0)`: current task deletes itself
deriving DecidableEq

/-- `thread_start` from src/src/task.rs, as its trace of ownership and kernel
events: reclaim the boxed closure from the raw context pointer, invoke it,
free it when the inner scope ends, then ask the kernel to delete the current
task. -/
def thread_start : List SpawnEvent :=
  [.reclaimBox, .invokeClosure, .freeBox, .deleteSelf]

/-- The argument record of one call to the kernel create-task primitive
`freertos_rs_spawn_task` (name bytes, stack size in words, native
priority). -/
structure CreateTaskCall where
  name : String
  stack_size : Nat
  priority : Nat
deriving DecidableEq

/-- `Task::spawn_inner` from src/src/task.rs, parameterized by the observable
result of the kernel create-task primitive (`ret`, its return status, and
`handle`, the task handle written through the out parameter).  Produces the
call made to the primitive, the returned result, and the trace of ownership
events this layer performs on the boxed closure: on status `0` ownership is
released with `mem::forget` and the new `Task` handle is returned; on nonzero
status the box is dropped normally and `OutOfMemory` is returned. -/
def Task.spawn_inner (name : String) (stack_size : Nat) (priority : TaskPriority)
    (ret : Nat) (handle : Nat) :
    CreateTaskCall × Except FreeRtosError Task × List SpawnEvent :=
  (⟨name, stack_size, priority.to_freertos⟩,
   if ret = 0 then (.ok ⟨handle⟩, [.forgetBox])
   else (.error .OutOfMemory, [.dropBox]))

/-- `Task::spawn` from src/src/task.rs: boxes the closure and delegates to
`spawn_inner` unchanged. -/
def Task.spawn (name : String) (stack_size : Nat) (priority : TaskPriority)
    (ret handle : Nat) :
    CreateTaskCall × Except FreeRtosError Task × List SpawnEvent :=
  Task.spawn_inner name stack_size priority ret handle

/-- `TaskBuilder` from src/src/task.rs: the accumulated spawn
configuration. -/
structure TaskBuilder where
  task_name : String
  task_stack_size : Nat
  task_priority : TaskPriority
deriving DecidableEq

/-- `Task::new` from src/src/task.rs: the default builder configuration. -/
def Task.new : TaskBuilder :=
  ⟨"rust_task", 1024, .Normal⟩

/-- `TaskBuilder::start` from src/src/task.rs: takes the builder by shared
reference (`&self`) and delegates to `Task::spawn` with the accumulated
configuration.  In this state-passing embedding the builder visible to the
caller after the call is returned alongside the result; the shared borrow
cannot mutate the fields, so it is the input builder itself. -/
def TaskBuilder.start (b : TaskBuilder) (ret handle : Nat) :
    (CreateTaskCall × Except FreeRtosError Task × List SpawnEvent) × TaskBuilder :=
  (Task.spawn b.task_name b.task_stack_size b.task_priority ret handle, b)

end FreeRtosRs

namespace FreeRtosRs

/-- C4: `TaskPriority::to_freertos` is strictly order-reversing over the four
ordered levels: whenever `p1` is lower than `p2` in the ordering
`BelowNormal < Normal < AboveNormal < High`, the native value of `p1` is
strictly greater than that of `p2` (smaller native value = higher priority). -/
theorem taskPriority_to_freertos_strictly_order_reversing
    (p1 p2 : TaskPriority) (h : p1.level < p2.level) :
    p2.to_freertos < p1.to_freertos := by
  cases p1 <;> cases p2 <;> simp_all [TaskPriority.level, TaskPriority.to_freertos]

/-- Witness for C4 at the concrete pair `BelowNormal`, `High`. -/
theorem taskPriority_to_freertos_strictly_order_reversing_witness :
    TaskPriority.BelowNormal.level < TaskPriority.High.level ∧
    TaskPriority.High.to_freertos < TaskPriority.BelowNormal.to_freertos :=
  ⟨by decide,
   taskPriority_to_freertos_strictly_order_reversing .BelowNormal .High (by decide)⟩

/-- C3: `TaskNotification::to_freertos` maps the five command variants to the
wire pairs `NoAction ↦ (0,0)`, `SetBits v ↦ (v,1)`, `Increment ↦ (0,2)`,
`OverwriteValue v ↦ (v,3)`, `SetValue v ↦ (v,4)`; the action code of every
command equals its position in the spec's command set, and every code `0..4`
is attained, so variants and action codes correspond bijectively in order. -/
theorem taskNotification_to_freertos_bijective_wire :
    (∀ n : TaskNotification, n.to_freertos.2 = n.tag) ∧
    TaskNotification.NoAction.to_freertos = (0, 0) ∧
    (∀ v, (TaskNotification.SetBits v).to_freertos = (v, 1)) ∧
    TaskNotification.Increment.to_freertos = (0, 2) ∧
    (∀ v, (TaskNotification.OverwriteValue v).to_freertos = (v, 3)) ∧
    (∀ v, (TaskNotification.SetValue v).to_freertos = (v, 4)) ∧
    (∀ c : Fin 5, (notifOfCode c).to_freertos.2 = c.val) ∧
    (∀ c : Fin 5, (notifOfCode c).tag = c.val) :=
  ⟨fun n => by cases n <;> rfl, rfl, fun _ => rfl, rfl, fun _ => rfl, fun _ => rfl,
   fun c => by fin_cases c <;> rfl, fun c => by fin_cases c <;> rfl⟩

/-- C5: `TaskDelayPeriodic::should_run` returns `false` and leaves both the
stored baseline and the period unchanged when the elapsed time since the
baseline is strictly below the period in ticks, and otherwise sets the
baseline to the current tick count (keeping the period) and returns
`true`. -/
theorem should_run_period_check (s : TaskDelayPeriodic) (c : Nat) :
    (tickSub c s.last_wake_time < s.period.to_ticks →
      s.should_run c = (false, s)) ∧
    (s.period.to_ticks ≤ tickSub c s.last_wake_time →
      s.should_run c = (true, ⟨c, s.period⟩)) := by
  constructor
  · intro h
    simp [TaskDelayPeriodic.should_run, h]
  · intro h
    simp [TaskDelayPeriodic.should_run, Nat.not_lt.mpr h]

/-- Witness for C5: baseline 100, period 5 ticks; at tick 103 nothing runs
and the state is untouched, at tick 105 it runs and the baseline becomes
105. -/
theorem should_run_period_check_witness :
    TaskDelayPeriodic.should_run ⟨100, ⟨5⟩⟩ 103 = (false, ⟨100, ⟨5⟩⟩) ∧
    TaskDelayPeriodic.should_run ⟨100, ⟨5⟩⟩ 105 = (true, ⟨105, ⟨5⟩⟩) :=
  ⟨(should_run_period_check ⟨100, ⟨5⟩⟩ 103).1 (by decide),
   (should_run_period_check ⟨100, ⟨5⟩⟩ 105).2 (by decide)⟩

/-- C6: the elapsed-time computation of `should_run` is subtraction modulo
the tick-counter width: for every baseline below the modulus and every true
elapsed count `e` below the modulus — including when the current tick
`(baseline + e) % tickModulus` has wrapped past the counter maximum — the
computed difference is exactly `e`, and `should_run` fires precisely when `e`
reaches the period. -/
theorem should_run_elapsed_modular (s : TaskDelayPeriodic) (e : Nat)
    (hb : s.last_wake_time < tickModulus) (he : e < tickModulus) :
    tickSub ((s.last_wake_time + e) % tickModulus) s.last_wake_time = e ∧
    (s.should_run ((s.last_wake_time + e) % tickModulus)).1 =
      decide (s.period.to_ticks ≤ e) := by
  have hM : tickModulus = 4294967296 := rfl
  have h1 : tickSub ((s.last_wake_time + e) % tickModulus) s.last_wake_time = e := by
    rw [hM] at hb he
    simp only [tickSub, hM]
    omega
  refine ⟨h1, ?_⟩
  by_cases hc : e < s.period.to_ticks
  · simp [TaskDelayPeriodic.should_run, h1, hc, Nat.not_le.mpr hc]
  · simp [TaskDelayPeriodic.should_run, h1, hc, Nat.le_of_not_lt hc]

/-- Witness for C6: baseline 4294967291 (five below the counter maximum),
true elapsed 10, so the current tick has wrapped to 5; the computed elapsed
is 10 and an 8-tick period fires. -/
theorem should_run_elapsed_modular_witness :
    tickSub ((4294967291 + 10) % tickModulus) 4294967291 = 10 ∧
    (TaskDelayPeriodic.should_run ⟨4294967291, ⟨8⟩⟩
        ((4294967291 + 10) % tickModulus)).1 = decide ((8 : Nat) ≤ 10) :=
  should_run_elapsed_modular ⟨4294967291, ⟨8⟩⟩ 10 (by decide) (by decide)

/-- C7: `wait_for_notification` returns `Ok v` with `v` exactly the value the
kernel notify-wait primitive wrote if and only if the primitive's status is
`0`, returns `Err Timeout` if and only if the status is nonzero, and produces
no other error kind. -/
theorem wait_for_notification_status (kernel : Nat → Nat → Nat → NotifyWaitResult)
    (enterBits exitBits : Nat) (d : Duration) :
    (Task.wait_for_notification kernel enterBits exitBits d =
        .ok (kernel enterBits exitBits d.to_ticks).value ↔
      (kernel enterBits exitBits d.to_ticks).status = 0) ∧
    (∀ v, Task.wait_for_notification kernel enterBits exitBits d = .ok v →
      v = (kernel enterBits exitBits d.to_ticks).value) ∧
    (Task.wait_for_notification kernel enterBits exitBits d = .error .Timeout ↔
      (kernel enterBits exitBits d.to_ticks).status ≠ 0) ∧
    (∀ err, Task.wait_for_notification kernel enterBits exitBits d = .error err →
      err = .Timeout) := by
  by_cases h : (kernel enterBits exitBits d.to_ticks).status = 0 <;>
    simp_all [Task.wait_for_notification]

/-- Witness for C7: a kernel reporting status 0 with value 42 yields
`Ok 42`; a kernel reporting status 7 yields `Err Timeout`. -/
theorem wait_for_notification_status_witness :
    Task.wait_for_notification (fun _ _ _ => ⟨0, 42⟩) 1 2 ⟨3⟩ = .ok 42 ∧
    Task.wait_for_notification (fun _ _ _ => ⟨7, 0⟩) 1 2 ⟨3⟩ = .error .Timeout :=
  ⟨(wait_for_notification_status (fun _ _ _ => ⟨0, 42⟩) 1 2 ⟨3⟩).1.mpr rfl,
   (wait_for_notification_status (fun _ _ _ => ⟨7, 0⟩) 1 2 ⟨3⟩).2.2.1.mpr
     (by decide)⟩

/-- C8: `Task::current` fails with `TaskNotFound` if and only if the kernel
get-current-task primitive returned the null handle, and otherwise returns a
`Task` storing exactly the non-null handle the primitive returned. -/
theorem task_current_null_check (t : Nat) :
    (Task.current t = .error .TaskNotFound ↔ t = 0) ∧
    (t ≠ 0 → Task.current t = .ok ⟨t⟩) ∧
    (∀ tk, Task.current t = .ok tk → tk.task_handle = t) := by
  by_cases h : t = 0 <;> simp_all [Task.current]

/-- Witness for C8: the null handle gives `TaskNotFound`, handle 7 gives a
task holding 7. -/
theorem task_current_null_check_witness :
    Task.current 0 = .error .TaskNotFound ∧ Task.current 7 = .ok ⟨7⟩ :=
  ⟨(task_current_null_check 0).1.mpr rfl,
   (task_current_null_check 7).2.1 (by decide)⟩

/-- C9: `message` emits exactly one byte per input character, every emitted
byte is at most `0x7f`, characters at or below `0x7f` pass through unchanged,
and characters above `0x7f` become the code of `'?'` (`0x3f`). -/
theorem message_one_ascii_byte_per_char (msg : List Nat) :
    (message msg).length = msg.length ∧
    List.Forall₂ (fun c b => b ≤ 0x7f ∧ (c ≤ 0x7f → b = c) ∧ (0x7f < c → b = 0x3f))
      msg (message msg) := by
  refine ⟨by simp [message], ?_⟩
  induction msg with
  | nil => simp [message]
  | cons c rest ih =>
    refine List.Forall₂.cons ?_ ih
    by_cases h : 0x7f < c <;> simp [message, h]
    omega

/-- Witness for C9 on the concrete string with code points 65 (ASCII `A`)
and 955 (non-ASCII): the output is one byte per character, `A` unchanged and
`0x3f` for the non-ASCII character. -/
theorem message_one_ascii_byte_per_char_witness :
    message [65, 955] = [65, 0x3f] ∧
    (message [65, 955]).length = ([65, 955] : List Nat).length ∧
    List.Forall₂ (fun c b => b ≤ 0x7f ∧ (c ≤ 0x7f → b = c) ∧ (0x7f < c → b = 0x3f))
      [65, 955] (message [65, 955]) :=
  ⟨rfl, (message_one_ascii_byte_per_char [65, 955]).1,
   (message_one_ascii_byte_per_char [65, 955]).2⟩

/-- C1: after a successful spawn (kernel status `0`), the trampoline
`thread_start` begins by reclaiming the boxed closure, invokes it exactly
once, and finishes by deleting the current task (the deletion coming after
the invocation); over the whole success-path trace — the spawn side's events
followed by the trampoline's — the closure is invoked exactly once, the box
is freed exactly once and is never dropped elsewhere, and the spawn side
itself frees nothing, so the trampoline is the only freeing path. -/
theorem thread_start_runs_closure_exactly_once
    (name : String) (stack_size : Nat) (priority : TaskPriority) (handle : Nat) :
    thread_start.head? = some .reclaimBox ∧
    thread_start.count .invokeClosure = 1 ∧
    thread_start.getLast? = some .deleteSelf ∧
    thread_start.indexOf .invokeClosure < thread_start.indexOf .deleteSelf ∧
    (((Task.spawn_inner name stack_size priority 0 handle).2.2 ++
        thread_start).count .invokeClosure = 1 ∧
     ((Task.spawn_inner name stack_size priority 0 handle).2.2 ++
        thread_start).count .freeBox = 1 ∧
     ((Task.spawn_inner name stack_size priority 0 handle).2.2 ++
        thread_start).count .dropBox = 0) ∧
    ((Task.spawn_inner name stack_size priority 0 handle).2.2).count .freeBox = 0 := by
  exact ⟨rfl, rfl, rfl, by decide, ⟨rfl, rfl, rfl⟩, rfl⟩

/-- C2: on nonzero status from the kernel create-task primitive,
`spawn_inner` returns `Err OutOfMemory` and its ownership trace is exactly
one normal drop of the box (never a leak via `forget`, never a free on the
kernel / trampoline path); on status `0` it returns the new task handle and
the trace is exactly one `forget`, releasing ownership without freeing. -/
theorem spawn_inner_failure_drops_success_forgets
    (name : String) (stack_size : Nat) (priority : TaskPriority) (ret handle : Nat) :
    (ret ≠ 0 →
      (Task.spawn_inner name stack_size priority ret handle).2.1 =
          .error .OutOfMemory ∧
      (Task.spawn_inner name stack_size priority ret handle).2.2 = [.dropBox]) ∧
    (ret = 0 →
      (Task.spawn_inner name stack_size priority ret handle).2.1 = .ok ⟨handle⟩ ∧
      (Task.spawn_inner name stack_size priority ret handle).2.2 = [.forgetBox]) := by
  by_cases h : ret = 0 <;> simp_all [Task.spawn_inner]

/-- Witness for C2: with kernel status 1 the spawn fails with `OutOfMemory`
and drops the box once; with status 0 it returns the handle 7 and forgets
the box. -/
theorem spawn_inner_failure_drops_success_forgets_witness :
    ((Task.spawn_inner "t" 64 .Normal 1 0).2.1 = .error .OutOfMemory ∧
      (Task.spawn_inner "t" 64 .Normal 1 0).2.2 = [.dropBox]) ∧
    ((Task.spawn_inner "t" 64 .Normal 0 7).2.1 = .ok ⟨7⟩ ∧
      (Task.spawn_inner "t" 64 .Normal 0 7).2.2 = [.forgetBox]) :=
  ⟨(spawn_inner_failure_drops_success_forgets "t" 64 .Normal 1 0).1 (by decide),
   (spawn_inner_failure_drops_success_forgets "t" 64 .Normal 0 7).2 rfl⟩

/-- C10: `TaskBuilder::start` leaves the builder — all three configuration
fields — unchanged, passes exactly the builder's name, stack size and mapped
priority to the kernel create-task call, and a second `start` on the
resulting builder makes the identical call with the identical result. -/
theorem taskBuilder_start_preserves_config (b : TaskBuilder) (ret handle : Nat) :
    (b.start ret handle).2 = b ∧
    (b.start ret handle).2.task_name = b.task_name ∧
    (b.start ret handle).2.task_stack_size = b.task_stack_size ∧
    (b.start ret handle).2.task_priority = b.task_priority ∧
    (b.start ret handle).1.1 =
      ⟨b.task_name, b.task_stack_size, b.task_priority.to_freertos⟩ ∧
    (b.start ret handle).2.start ret handle = b.start ret handle :=
  ⟨rfl, rfl, rfl, rfl, rfl, rfl⟩

end FreeRtosRs
